import Mathlib

/-!
Shallow embedding of `src/cli/script/generate-fn-cli-refs.py`, a documentation
generator that reads a newline-separated list of `fn` subcommands, runs each
one with `--help` appended, and writes the captured standard output into a
per-command markdown file rendered from a fixed template.

The program's side effects (file reads, process spawns, file writes, stderr
log lines) are modelled as an explicit trace of `Effect` values; the external
world (directory existence, file contents, process results) is an oracle
passed in as a `World` record.  Exceptions (`InvalidFnCommand`,
`subprocess.CalledProcessError`) are modelled with `Except`; `sys.exit` and
uncaught exceptions become `ExitStatus.fail`.
-/

set_option autoImplicit false

namespace FnCliDocRefs

/-- Result of running one external process: its captured standard output and
its exit code.  `subprocess.check_output` captures stdout only. -/
structure ProcResult where
  stdout : String
  exitCode : Nat
deriving DecidableEq

/-- One observable side effect of a run, in order of occurrence:
a file read, an external process spawn, a whole-file write, or a line written
to the diagnostic stream (stderr). -/
inductive Effect where
  | read (path : String)
  | spawn (argv : List String)
  | write (path : String) (content : String)
  | logErr (msg : String)
deriving DecidableEq

/-- True exactly for the effects the no-action flag suppresses: process
spawns and file writes. -/
def Effect.isSideEffecting : Effect → Bool
  | Effect.spawn _ => true
  | Effect.write _ _ => true
  | _ => false

/-- True exactly for file-write effects. -/
def Effect.isWrite : Effect → Bool
  | Effect.write _ _ => true
  | _ => false

/-- True exactly for process-spawn effects. -/
def Effect.isSpawn : Effect → Bool
  | Effect.spawn _ => true
  | _ => false

/-- The two exceptions that can escape `_run_command`: the script's own
`InvalidFnCommand`, and `subprocess.CalledProcessError` raised by
`check_output` on a non-zero exit code. -/
inductive RunError where
  | invalidFnCommand
  | calledProcessError
deriving DecidableEq

/-- How the whole program ends: normal termination (exit status 0), or
`sys.exit(message)` / an uncaught exception (non-zero exit status with a
user-facing message). -/
inductive ExitStatus where
  | ok
  | fail (msg : String)
deriving DecidableEq

/-- `FnCliDocWriter.FN_COMMAND`, the fixed tool literal. -/
def FN_COMMAND : String := "fn"

/-- Split a character list at every character satisfying `p`, keeping empty
groups, so that separators at the ends or adjacent separators yield empty
groups exactly as Python `str.split(sep)` does. -/
def splitOnPred (p : Char → Bool) : List Char → List (List Char)
  | [] => [[]]
  | a :: rest =>
    let r := splitOnPred p rest
    if p a then [] :: r
    else
      match r with
      | [] => [[a]]
      | g :: gs => (a :: g) :: gs

/-- Python `str.split()` with no argument: split on whitespace, discarding
empty tokens (so a blank or all-whitespace line yields `[]`). -/
def pySplit (s : String) : List String :=
  ((splitOnPred Char.isWhitespace s.data).filter (fun g => g ≠ [])).map
    String.mk

/-- Python `str.split("\n")`: split on each newline, keeping empty strings
for leading, trailing, or adjacent newlines. -/
def pySplitLines (s : String) : List String :=
  (splitOnPred (fun c => c = '\n') s.data).map String.mk

/-- Python `repr` of a list of strings, as `str.format` renders the argv list
in the `Running command:` log line, e.g. `[\x27fn\x27, \x27build\x27]`. -/
def pyListRepr (l : List String) : String :=
  "[" ++ String.intercalate ", " (l.map (fun s => "\x27" ++ s ++ "\x27")) ++ "]"

/-- `FnCliDocWriter.doc_template.substitute(command=..., command_output=...)`:
the dedented template with `$command` and `$command_output` substituted and
`$$` collapsed to a literal dollar sign. -/
def doc_template_substitute (command command_output : String) : String :=
  "# `" ++ command ++ "`\n\n```c\n$ " ++ command ++ "\n" ++ command_output ++ "\n```"

/-- The run configuration held by a constructed `FnCliDocWriter`:
`command_filename`, `output_dir`, `_no_action`, and `_verbose` (the latter
already derived, see `effectiveVerbose`). -/
structure FnCliDocWriter where
  command_filename : String
  output_dir : String
  no_action : Bool
  verbose : Nat

/-- The final value `__init__` stores in `self._verbose`.  The last assignment
is `self._verbose = verbose or no_action`: Python `or` keeps `verbose` when it
is non-zero and otherwise yields the boolean `no_action`, which compares as
1 (`True`) or 0 (`False`) in the later `>=` test. -/
def effectiveVerbose (verbose : Nat) (no_action : Bool) : Nat :=
  if verbose ≠ 0 then verbose else if no_action then 1 else 0

/-- `FnCliDocWriter.__init__`: stores the paths and flags and derives the
effective verbosity once, at construction. -/
def mkWriter (command_filename output_dir : String) (no_action : Bool)
    (verbose : Nat) : FnCliDocWriter :=
  { command_filename := command_filename
    output_dir := output_dir
    no_action := no_action
    verbose := effectiveVerbose verbose no_action }

/-- `FnCliDocWriter._log`: write `message` plus a newline to stderr when the
stored verbosity is at least `log_level`; otherwise do nothing. -/
def log (w : FnCliDocWriter) (message : String) (log_level : Nat) : List Effect :=
  if w.verbose ≥ log_level then [Effect.logErr (message ++ "\n")] else []

/-- Python `subprocess.check_output`, applied to the result the spawned
process produced: return the captured stdout when the exit code is 0, raise
`CalledProcessError` otherwise. -/
def check_output (r : ProcResult) : Except RunError String :=
  if r.exitCode = 0 then Except.ok r.stdout
  else Except.error RunError.calledProcessError

/-- `FnCliDocWriter._run_command`.  `exec` is the external world: it maps a
full argv (help flag included) to that process's result.  `generate_doc` only
calls this with a non-empty token list, so `headD` stands in for
`command[0]`.  The spawn effect is recorded whether or not the process exits
0, since the process runs before `check_output` inspects its exit code. -/
def run_command (w : FnCliDocWriter) (exec : List String → ProcResult)
    (command : List String) : List Effect × Except RunError String :=
  if command.headD "" ≠ FN_COMMAND then
    ([], Except.error RunError.invalidFnCommand)
  else
    let cmd := command ++ ["--help"]
    let logs := log w ("Running command: " ++ pyListRepr cmd) 1
    if w.no_action then (logs, Except.ok "")
    else
      match check_output (exec cmd) with
      | Except.ok out => (logs ++ [Effect.spawn cmd], Except.ok out)
      | Except.error e => (logs ++ [Effect.spawn cmd], Except.error e)

/-- `FnCliDocWriter._get_doc_filename`: plain string concatenation of the
output directory, the hyphen-joined tokens, and the `.md` extension. -/
def get_doc_filename (output_dir : String) (command : List String) : String :=
  output_dir ++ String.intercalate "-" command ++ ".md"

/-- Whether a path string ends with the path separator. -/
def endsWithSlash (s : String) : Bool :=
  match s.data.getLast? with
  | some c => c = '/'
  | none => false

/-- The path of the file named `name` located inside directory `dir` (the
spec's wording for the deriver's contract): the directory, a path separator
unless the directory string already ends with one, then the bare name. -/
def fileInsideDir (dir name : String) : String :=
  if endsWithSlash dir then dir ++ name else dir ++ "/" ++ name

/-- `FnCliDocWriter._write_doc`: re-split the original command string, derive
the output path, log it, and (unless no-action) write the rendered template.
The write itself always succeeds in this model; the script's `sys.exit` on an
`IOError` during the write is outside the claims considered here. -/
def write_doc (w : FnCliDocWriter) (command_string command_output : String) :
    List Effect :=
  let command := pySplit command_string
  let output_file := get_doc_filename w.output_dir command
  let logs := log w ("Writing documentation to: " ++ output_file) 1
  if w.no_action then logs
  else
    logs ++ [Effect.write output_file
      (doc_template_substitute command_string command_output)]

/-- One iteration of the `generate_doc` loop body for line `command_string`:
log the found command, skip blank lines, run the command (catching
`InvalidFnCommand` as an unconditional stderr notice and a skip), write the
doc, and log a blank separator.  A `CalledProcessError` is not caught and
aborts the run. -/
def process_line (w : FnCliDocWriter) (exec : List String → ProcResult)
    (command_string : String) : List Effect × Except RunError Unit :=
  let logs0 := log w ("Found command: \x27" ++ command_string ++ "\x27") 1
  let command := pySplit command_string
  if command.length < 1 then (logs0, Except.ok ())
  else
    match run_command w exec command with
    | (logs1, Except.ok command_output) =>
        (logs0 ++ logs1 ++ write_doc w command_string command_output ++
          log w "" 1, Except.ok ())
    | (logs1, Except.error RunError.invalidFnCommand) =>
        (logs0 ++ logs1 ++
          [Effect.logErr (command_string ++
            " is an invalid Fn command. Skipping...\n")], Except.ok ())
    | (logs1, Except.error RunError.calledProcessError) =>
        (logs0 ++ logs1, Except.error RunError.calledProcessError)

/-- The `for command_string in command_list` loop of `generate_doc`,
stopping early when an uncaught exception escapes an iteration. -/
def generate_doc_go (w : FnCliDocWriter) (exec : List String → ProcResult) :
    List String → List Effect × Except RunError Unit
  | [] => ([], Except.ok ())
  | line :: rest =>
    match process_line w exec line with
    | (effs, Except.ok ()) =>
        let r := generate_doc_go w exec rest
        (effs ++ r.1, r.2)
    | (effs, Except.error e) => (effs, Except.error e)

/-- `FnCliDocWriter.generate_doc` applied to the already-read file contents:
split on newlines (Python `str.split("\n")`, which keeps empty lines) and
process each line in order. -/
def generate_doc (w : FnCliDocWriter) (exec : List String → ProcResult)
    (content : String) : List Effect × Except RunError Unit :=
  generate_doc_go w exec (pySplitLines content)

/-- The external world a run observes: which paths are directories, what each
readable file contains (`none` models an `IOError` on open), and what each
spawned process produces. -/
structure World where
  isDir : String → Bool
  readFile : String → Option String
  exec : List String → ProcResult

/-- The parsed command-line arguments of the script's own invocation. -/
structure Args where
  command_list_file : String
  output_dir : String
  no_action : Bool
  verbose : Nat

/-- The run once the writer is constructed: read the command list
(`_get_command_list` exits on an `IOError`) and run `generate_doc`; an
uncaught exception escaping `generate_doc` aborts with a non-zero status. -/
def main_run_writer (w : FnCliDocWriter) (world : World) :
    List Effect × ExitStatus :=
  match world.readFile w.command_filename with
  | none => ([Effect.read w.command_filename], ExitStatus.fail "IOError")
  | some content =>
    match generate_doc w world.exec content with
    | (effs, Except.ok ()) =>
        (Effect.read w.command_filename :: effs, ExitStatus.ok)
    | (effs, Except.error RunError.calledProcessError) =>
        (Effect.read w.command_filename :: effs,
          ExitStatus.fail "CalledProcessError")
    | (effs, Except.error RunError.invalidFnCommand) =>
        (Effect.read w.command_filename :: effs,
          ExitStatus.fail "InvalidFnCommand")

/-- The `__main__` block after argument parsing: fail at once if the output
directory does not exist, otherwise construct the writer and run the
pipeline. -/
def main_run (args : Args) (world : World) : List Effect × ExitStatus :=
  if world.isDir args.output_dir = false then
    ([], ExitStatus.fail ("\x27" ++ args.output_dir ++
      "\x27 is not a valid directory. Please provide a valid directory to" ++
      " \x27--output-dir\x27"))
  else
    main_run_writer
      (mkWriter args.command_list_file args.output_dir args.no_action
        args.verbose) world

/-! Concrete writers, argument records, and worlds used to instantiate the
theorems below on closed inputs. -/

/-- A writer with no-action off and verbosity 0. -/
def wLive : FnCliDocWriter := mkWriter "cmds.txt" "out/" false 0

/-- A writer with no-action on and verbosity 0. -/
def wNoAct : FnCliDocWriter := mkWriter "cmds.txt" "out/" true 0

/-- A process oracle giving help text with exit code 0 for the two commands
of the spec scenario, and empty output for anything else. -/
def execHelp : List String → ProcResult := fun argv =>
  if argv = ["fn", "build", "--help"] then { stdout := "BUILD", exitCode := 0 }
  else if argv = ["fn", "apps", "list", "--help"] then
    { stdout := "LIST", exitCode := 0 }
  else { stdout := "", exitCode := 0 }

/-- Arguments for the spec scenario run: list file `cmds.txt`, output
directory `out/`, no-action off, verbosity 0. -/
def argsScenario : Args :=
  { command_list_file := "cmds.txt", output_dir := "out/", no_action := false
    verbose := 0 }

/-- The same arguments with the no-action flag set. -/
def argsNoAct : Args :=
  { command_list_file := "cmds.txt", output_dir := "out/", no_action := true
    verbose := 0 }

/-- The spec scenario world: `out/` exists, `cmds.txt` holds the four-line
command list, and processes answer per `execHelp`. -/
def worldScenario : World :=
  { isDir := fun d => d = "out/"
    readFile := fun p =>
      if p = "cmds.txt" then some "fn build\n\nfn apps list\nnotfn foo\n"
      else none
    exec := execHelp }

/-- A world whose only command, `fn build`, produces text on stdout but exits
with status 1 (as a CLI printing usage on error would). -/
def worldExitOne : World :=
  { isDir := fun d => d = "out/"
    readFile := fun p => if p = "cmds.txt" then some "fn build" else none
    exec := fun _ => { stdout := "usage", exitCode := 1 } }

/-- A world in which no path is a directory. -/
def worldNoDir : World :=
  { isDir := fun _ => false
    readFile := fun p =>
      if p = "cmds.txt" then some "fn build\n\nfn apps list\nnotfn foo\n"
      else none
    exec := execHelp }

/-! Helper lemmas shared by the claim theorems. -/

theorem log_filter_side (w : FnCliDocWriter) (m : String) (lvl : Nat) :
    (log w m lvl).filter Effect.isSideEffecting = [] := by
  unfold log
  split <;> simp [Effect.isSideEffecting]

theorem run_command_valid (w : FnCliDocWriter)
    (exec : List String → ProcResult) (command : List String)
    (h1 : command.headD "" = FN_COMMAND) (h2 : w.no_action = false) :
    run_command w exec command =
      (log w ("Running command: " ++ pyListRepr (command ++ ["--help"])) 1 ++
        [Effect.spawn (command ++ ["--help"])],
       check_output (exec (command ++ ["--help"]))) := by
  unfold run_command
  rw [if_neg (by rw [h1]; simp), if_neg (by simp [h2])]
  cases hc : check_output (exec (command ++ ["--help"])) <;> simp [hc]

/-- C1 (amended): for a valid command with no-action off, the executor's
result is exactly `check_output` of the process result: the captured stdout
is returned verbatim when the exit code is 0, and a `CalledProcessError` is
raised (aborting the run) when the exit code is non-zero — the exit status
is inspected, contrary to the original claim. -/
theorem C1_theorem (w : FnCliDocWriter) (exec : List String → ProcResult)
    (command : List String) (h1 : command.headD "" = FN_COMMAND)
    (h2 : w.no_action = false) :
    (run_command w exec command).2 =
      check_output (exec (command ++ ["--help"])) ∧
    ((exec (command ++ ["--help"])).exitCode = 0 →
      (run_command w exec command).2 =
        Except.ok (exec (command ++ ["--help"])).stdout) ∧
    ((exec (command ++ ["--help"])).exitCode ≠ 0 →
      (run_command w exec command).2 =
        Except.error RunError.calledProcessError) := by
  rw [run_command_valid w exec command h1 h2]
  refine ⟨rfl, ?_, ?_⟩
  · intro h0
    unfold check_output
    rw [if_pos h0]
  · intro h0
    unfold check_output
    rw [if_neg h0]

/-- C1 (counterexample): in a run whose only command's process prints
`usage` on stdout but exits with status 1, no document is written and the
run aborts with a non-zero status, refuting the claim that captured text is
written regardless of the exit status. -/
theorem C1_counterexample :
    (worldExitOne.exec ["fn", "build", "--help"]).stdout = "usage" ∧
    (main_run argsScenario worldExitOne).1.filter Effect.isWrite = [] ∧
    (main_run argsScenario worldExitOne).2 =
      ExitStatus.fail "CalledProcessError" :=
  ⟨rfl, by decide, by decide⟩

/-- C1 (witness): the amended theorem instantiated at `fn build` under the
exit-status-1 world. -/
theorem C1_witness :
    ["fn", "build"].headD "" = FN_COMMAND ∧ wLive.no_action = false ∧
    ((run_command wLive worldExitOne.exec ["fn", "build"]).2 =
        check_output (worldExitOne.exec ["fn", "build", "--help"]) ∧
      ((worldExitOne.exec ["fn", "build", "--help"]).exitCode = 0 →
        (run_command wLive worldExitOne.exec ["fn", "build"]).2 =
          Except.ok (worldExitOne.exec ["fn", "build", "--help"]).stdout) ∧
      ((worldExitOne.exec ["fn", "build", "--help"]).exitCode ≠ 0 →
        (run_command wLive worldExitOne.exec ["fn", "build"]).2 =
          Except.error RunError.calledProcessError)) :=
  ⟨rfl, rfl, C1_theorem wLive worldExitOne.exec ["fn", "build"] rfl rfl⟩

/-- C2 (amended): when the configured output directory string ends with a
path separator, the filename deriver returns exactly the path of the file
named by the hyphen-joined tokens plus `.md` inside that directory.  (The
code concatenates strings, so without a trailing separator the result is not
inside the directory.) -/
theorem C2_theorem (output_dir : String) (command : List String)
    (h : endsWithSlash output_dir = true) :
    get_doc_filename output_dir command =
      fileInsideDir output_dir (String.intercalate "-" command ++ ".md") := by
  unfold get_doc_filename fileInsideDir
  rw [if_pos h, String.append_assoc]

/-- C2 (counterexample): with the valid output directory `docs` (no trailing
separator), the deriver returns `docsfn-build.md`, which is not the path of
`fn-build.md` inside `docs`. -/
theorem C2_counterexample :
    get_doc_filename "docs" ["fn", "build"] = "docsfn-build.md" ∧
    get_doc_filename "docs" ["fn", "build"] ≠
      fileInsideDir "docs" (String.intercalate "-" ["fn", "build"] ++ ".md") :=
  ⟨rfl, by decide⟩

/-- C2 (witness): the amended theorem instantiated at directory `docs/` and
tokens `fn build`. -/
theorem C2_witness :
    endsWithSlash "docs/" = true ∧
    get_doc_filename "docs/" ["fn", "build"] =
      fileInsideDir "docs/" (String.intercalate "-" ["fn", "build"] ++ ".md") :=
  ⟨by decide, C2_theorem "docs/" ["fn", "build"] (by decide)⟩

/-- C4 (confirmed): the scenario run over the list
`"fn build\n\nfn apps list\nnotfn foo\n"` with tool literal `fn` writes
exactly the two documents `out/fn-build.md` and `out/fn-apps-list.md` and
spawns exactly the two corresponding processes: the blank line and the
`notfn foo` line produce no document and no process invocation, and the run
exits successfully. -/
theorem C4_theorem :
    (main_run argsScenario worldScenario).1.filter Effect.isWrite =
      [Effect.write (get_doc_filename "out/" ["fn", "build"])
         (doc_template_substitute "fn build" "BUILD"),
       Effect.write (get_doc_filename "out/" ["fn", "apps", "list"])
         (doc_template_substitute "fn apps list" "LIST")] ∧
    (main_run argsScenario worldScenario).1.filter Effect.isSpawn =
      [Effect.spawn ["fn", "build", "--help"],
       Effect.spawn ["fn", "apps", "list", "--help"]] ∧
    get_doc_filename "out/" ["fn", "build"] = "out/fn-build.md" ∧
    get_doc_filename "out/" ["fn", "apps", "list"] = "out/fn-apps-list.md" ∧
    (main_run argsScenario worldScenario).2 = ExitStatus.ok :=
  ⟨by decide, by decide, rfl, rfl, by decide⟩

/-- C5 (confirmed): the document rendered for command `fn build` with
captured output `Builds a function` is exactly the fixed template with both
placeholders substituted, and the writer emits exactly that content to the
derived path. -/
theorem C5_theorem :
    doc_template_substitute "fn build" "Builds a function" =
      "# `fn build`\n\n```c\n$ fn build\nBuilds a function\n```" ∧
    write_doc wLive "fn build" "Builds a function" =
      [Effect.write "out/fn-build.md"
        "# `fn build`\n\n```c\n$ fn build\nBuilds a function\n```"] :=
  ⟨rfl, by decide⟩

theorem run_command_no_action (w : FnCliDocWriter)
    (exec : List String → ProcResult) (command : List String)
    (h : w.no_action = true) :
    run_command w exec command =
      if command.headD "" ≠ FN_COMMAND then
        ([], Except.error RunError.invalidFnCommand)
      else
        (log w ("Running command: " ++ pyListRepr (command ++ ["--help"])) 1,
         Except.ok "") := by
  unfold run_command
  by_cases hc : command.headD "" ≠ FN_COMMAND
  · rw [if_pos hc, if_pos hc]
  · rw [if_neg hc, if_neg hc, if_pos h]

theorem write_doc_no_action (w : FnCliDocWriter) (cs co : String)
    (h : w.no_action = true) :
    write_doc w cs co =
      log w ("Writing documentation to: " ++
        get_doc_filename w.output_dir (pySplit cs)) 1 := by
  simp only [write_doc]
  rw [if_pos h]

theorem process_line_filter_no_action (w : FnCliDocWriter)
    (exec : List String → ProcResult) (l : String) (h : w.no_action = true) :
    (process_line w exec l).1.filter Effect.isSideEffecting = [] := by
  unfold process_line
  by_cases hb : (pySplit l).length < 1
  · rw [if_pos hb]
    exact log_filter_side w _ 1
  · rw [if_neg hb]
    rw [run_command_no_action w exec (pySplit l) h]
    by_cases hc : (pySplit l).headD "" ≠ FN_COMMAND
    · rw [if_pos hc]
      simp [List.filter_append, log_filter_side, Effect.isSideEffecting]
    · rw [if_neg hc]
      simp [List.filter_append, log_filter_side, write_doc_no_action w _ _ h]

theorem generate_doc_go_filter_no_action (w : FnCliDocWriter)
    (exec : List String → ProcResult) (h : w.no_action = true)
    (ls : List String) :
    (generate_doc_go w exec ls).1.filter Effect.isSideEffecting = [] := by
  induction ls with
  | nil => simp [generate_doc_go]
  | cons l rest ih =>
    unfold generate_doc_go
    rcases hq : process_line w exec l with ⟨effs, r⟩
    have heff : effs.filter Effect.isSideEffecting = [] := by
      have hh := process_line_filter_no_action w exec l h
      rw [hq] at hh
      exact hh
    cases r with
    | ok u =>
      cases u
      simp [List.filter_append, heff, ih]
    | error e => simp [heff]

theorem main_run_writer_filter_no_action (w : FnCliDocWriter) (world : World)
    (h : w.no_action = true) :
    (main_run_writer w world).1.filter Effect.isSideEffecting = [] := by
  unfold main_run_writer
  cases hr : world.readFile w.command_filename with
  | none => simp [Effect.isSideEffecting]
  | some content =>
    rcases hg : generate_doc w world.exec content with ⟨effs, r⟩
    have heff : effs.filter Effect.isSideEffecting = [] := by
      have hh := generate_doc_go_filter_no_action w world.exec h
        (pySplitLines content)
      unfold generate_doc at hg
      rw [hg] at hh
      exact hh
    dsimp only
    rw [hg]
    cases r with
    | ok u =>
      cases u
      simp [Effect.isSideEffecting, heff]
    | error e =>
      cases e <;> simp [Effect.isSideEffecting, heff]

/-- C3 (confirmed): with the no-action flag set, a whole run spawns no
external process and writes no file, whatever the world contains. -/
theorem C3_theorem (args : Args) (world : World) (h : args.no_action = true) :
    (main_run args world).1.filter Effect.isSideEffecting = [] := by
  unfold main_run
  by_cases hd : world.isDir args.output_dir = false
  · rw [if_pos hd]
    rfl
  · rw [if_neg hd]
    exact main_run_writer_filter_no_action
      (mkWriter args.command_list_file args.output_dir args.no_action
        args.verbose) world h

/-- C3 (witness): the theorem instantiated at the no-action arguments and
the scenario world. -/
theorem C3_witness :
    argsNoAct.no_action = true ∧
    (main_run argsNoAct worldScenario).1.filter Effect.isSideEffecting = [] :=
  ⟨rfl, C3_theorem argsNoAct worldScenario rfl⟩

theorem run_command_invalid (w : FnCliDocWriter)
    (exec : List String → ProcResult) (command : List String)
    (h : command.headD "" ≠ FN_COMMAND) :
    run_command w exec command = ([], Except.error RunError.invalidFnCommand)
    := by
  unfold run_command
  rw [if_pos h]

theorem process_line_invalid (w : FnCliDocWriter)
    (exec : List String → ProcResult) (l : String) (h1 : pySplit l ≠ [])
    (h2 : (pySplit l).headD "" ≠ FN_COMMAND) :
    process_line w exec l =
      (log w ("Found command: \x27" ++ l ++ "\x27") 1 ++
        [Effect.logErr (l ++ " is an invalid Fn command. Skipping...\n")],
       Except.ok ()) := by
  unfold process_line
  rw [if_neg (by simp [Nat.lt_one_iff, List.length_eq_zero, h1])]
  rw [run_command_invalid w exec (pySplit l) h2]
  simp

/-- C6 (confirmed): a non-blank line whose first token is not the tool
literal yields a skip: the iteration ends normally (so processing continues
and the exit status is unaffected), no process is spawned and no file is
written, the skip notice is printed to stderr, and the remaining lines
behave as if the invalid line were absent. -/
theorem C6_theorem (w : FnCliDocWriter) (exec : List String → ProcResult)
    (l : String) (rest : List String) (h1 : pySplit l ≠ [])
    (h2 : (pySplit l).headD "" ≠ FN_COMMAND) :
    (process_line w exec l).2 = Except.ok () ∧
    (process_line w exec l).1.filter Effect.isSideEffecting = [] ∧
    Effect.logErr (l ++ " is an invalid Fn command. Skipping...\n") ∈
      (process_line w exec l).1 ∧
    (generate_doc_go w exec (l :: rest)).2 = (generate_doc_go w exec rest).2
    := by
  have hp := process_line_invalid w exec l h1 h2
  refine ⟨by rw [hp], ?_, ?_, ?_⟩
  · rw [hp]
    simp [List.filter_append, log_filter_side, Effect.isSideEffecting]
  · rw [hp]
    simp
  · simp only [generate_doc_go, hp]

/-- C6 (witness): the theorem instantiated at the line `notfn foo` followed
by the line `fn build`. -/
theorem C6_witness :
    pySplit "notfn foo" ≠ [] ∧
    (pySplit "notfn foo").headD "" ≠ FN_COMMAND ∧
    ((process_line wLive execHelp "notfn foo").2 = Except.ok () ∧
      (process_line wLive execHelp "notfn foo").1.filter
        Effect.isSideEffecting = [] ∧
      Effect.logErr ("notfn foo" ++ " is an invalid Fn command. Skipping...\n")
        ∈ (process_line wLive execHelp "notfn foo").1 ∧
      (generate_doc_go wLive execHelp ("notfn foo" :: ["fn build"])).2 =
        (generate_doc_go wLive execHelp ["fn build"]).2) :=
  ⟨by decide, by decide,
    C6_theorem wLive execHelp "notfn foo" ["fn build"] (by decide) (by decide)⟩

/-- C7 (confirmed): when the configured output directory does not exist, the
run fails at once with the user-facing message and an empty effect trace: in
particular the command list is never read and no line is processed. -/
theorem C7_theorem (args : Args) (world : World)
    (h : world.isDir args.output_dir = false) :
    (main_run args world).1 = [] ∧
    (main_run args world).2 =
      ExitStatus.fail ("\x27" ++ args.output_dir ++
        "\x27 is not a valid directory. Please provide a valid directory to"
        ++ " \x27--output-dir\x27") := by
  unfold main_run
  rw [if_pos h]
  exact ⟨rfl, rfl⟩

/-- C7 (witness): the theorem instantiated at the scenario arguments in a
world with no directories. -/
theorem C7_witness :
    worldNoDir.isDir argsScenario.output_dir = false ∧
    ((main_run argsScenario worldNoDir).1 = [] ∧
      (main_run argsScenario worldNoDir).2 =
        ExitStatus.fail ("\x27" ++ argsScenario.output_dir ++
          "\x27 is not a valid directory. Please provide a valid directory to"
          ++ " \x27--output-dir\x27")) :=
  ⟨rfl, C7_theorem argsScenario worldNoDir rfl⟩

/-- C8 (confirmed): the effective verbosity is a single value derived at
construction (`mkWriter` stores `effectiveVerbose verbose no_action`, and the
configuration record is never changed afterwards); with the no-action flag
set it is at least 1, so a level-1 message is emitted even when the
verbosity argument is 0. -/
theorem C8_theorem (f d : String) (v : Nat) (m : String) :
    (mkWriter f d true v).verbose = effectiveVerbose v true ∧
    1 ≤ (mkWriter f d true v).verbose ∧
    log (mkWriter f d true 0) m 1 = [Effect.logErr (m ++ "\n")] := by
  refine ⟨rfl, ?_, ?_⟩
  · show 1 ≤ effectiveVerbose v true
    by_cases hv : v = 0
    · subst hv
      decide
    · unfold effectiveVerbose
      rw [if_pos hv]
      omega
  · unfold log
    rw [if_pos (show (mkWriter f d true 0).verbose ≥ 1 from Nat.le_refl 1)]

theorem run_command_snd (w : FnCliDocWriter)
    (exec : List String → ProcResult) (c : List String) :
    (run_command w exec c).2 =
      if c.headD "" ≠ FN_COMMAND then Except.error RunError.invalidFnCommand
      else if w.no_action then Except.ok ""
      else check_output (exec (c ++ ["--help"])) := by
  unfold run_command
  by_cases h1 : c.headD "" ≠ FN_COMMAND
  · rw [if_pos h1, if_pos h1]
  · rw [if_neg h1, if_neg h1]
    by_cases h2 : w.no_action
    · rw [if_pos h2, if_pos h2]
    · rw [if_neg h2, if_neg h2]
      rcases hc : check_output (exec (c ++ ["--help"])) with out | e
      · rfl
      · rfl

theorem process_line_snd (w : FnCliDocWriter)
    (exec : List String → ProcResult) (l : String) :
    (process_line w exec l).2 =
      if (pySplit l).length < 1 then Except.ok ()
      else
        match (run_command w exec (pySplit l)).2 with
        | Except.ok _ => Except.ok ()
        | Except.error RunError.invalidFnCommand => Except.ok ()
        | Except.error RunError.calledProcessError =>
            Except.error RunError.calledProcessError := by
  unfold process_line
  by_cases hb : (pySplit l).length < 1
  · rw [if_pos hb, if_pos hb]
  · rw [if_neg hb, if_neg hb]
    rcases hq : run_command w exec (pySplit l) with ⟨logs1, r⟩
    cases r with
    | ok out => rfl
    | error e => cases e <;> rfl

theorem process_line_snd_verbose (w : FnCliDocWriter) (n : Nat)
    (exec : List String → ProcResult) (l : String) :
    (process_line { w with verbose := n } exec l).2 =
      (process_line w exec l).2 := by
  rw [process_line_snd, process_line_snd, run_command_snd, run_command_snd]

theorem generate_doc_go_snd_verbose (w : FnCliDocWriter) (n : Nat)
    (exec : List String → ProcResult) (ls : List String) :
    (generate_doc_go { w with verbose := n } exec ls).2 =
      (generate_doc_go w exec ls).2 := by
  induction ls with
  | nil => rfl
  | cons l rest ih =>
    unfold generate_doc_go
    rcases hq1 : process_line { w with verbose := n } exec l with ⟨e1, r1⟩
    rcases hq2 : process_line w exec l with ⟨e2, r2⟩
    have hr : r1 = r2 := by
      have hv := process_line_snd_verbose w n exec l
      rw [hq1, hq2] at hv
      exact hv
    subst hr
    cases r1 with
    | ok u =>
      cases u
      exact ih
    | error e => rfl

theorem generate_doc_snd_verbose (w : FnCliDocWriter) (n : Nat)
    (exec : List String → ProcResult) (content : String) :
    (generate_doc { w with verbose := n } exec content).2 =
      (generate_doc w exec content).2 := by
  unfold generate_doc
  exact generate_doc_go_snd_verbose w n exec (pySplitLines content)

theorem main_run_writer_snd_verbose (w : FnCliDocWriter) (n : Nat)
    (world : World) :
    (main_run_writer { w with verbose := n } world).2 =
      (main_run_writer w world).2 := by
  unfold main_run_writer
  dsimp only
  cases hr : world.readFile w.command_filename with
  | none => rfl
  | some content =>
    dsimp only
    rcases hg1 : generate_doc { w with verbose := n } world.exec content
      with ⟨e1, r1⟩
    rcases hg2 : generate_doc w world.exec content with ⟨e2, r2⟩
    have hr12 : r1 = r2 := by
      have hv := generate_doc_snd_verbose w n world.exec content
      rw [hg1, hg2] at hv
      exact hv
    subst hr12
    cases r1 with
    | ok u =>
      cases u
      rfl
    | error e => cases e <;> rfl

theorem main_run_snd_verbose (args : Args) (n : Nat) (world : World) :
    (main_run { args with verbose := n } world).2 =
      (main_run args world).2 := by
  unfold main_run
  dsimp only
  by_cases hd : world.isDir args.output_dir = false
  · rw [if_pos hd, if_pos hd]
  · rw [if_neg hd, if_neg hd]
    have hW : mkWriter args.command_list_file args.output_dir args.no_action n
        = { mkWriter args.command_list_file args.output_dir args.no_action
              args.verbose with
            verbose := effectiveVerbose n args.no_action } := rfl
    rw [hW]
    exact main_run_writer_snd_verbose
      (mkWriter args.command_list_file args.output_dir args.no_action
        args.verbose)
      (effectiveVerbose n args.no_action) world

/-- C9 (confirmed): the logger emits a message iff the configured verbosity
threshold is at least the message's level, and logging never affects the
run's exit status: the exit status of a whole run is unchanged under any
change of the verbosity argument. -/
theorem C9_theorem (w : FnCliDocWriter) (m : String) (lvl : Nat) (args : Args)
    (n : Nat) (world : World) :
    (Effect.logErr (m ++ "\n") ∈ log w m lvl ↔ w.verbose ≥ lvl) ∧
    (main_run { args with verbose := n } world).2 =
      (main_run args world).2 := by
  constructor
  · unfold log
    by_cases h : w.verbose ≥ lvl
    · rw [if_pos h]
      simp [h]
    · rw [if_neg h]
      simp [h]
  · exact main_run_snd_verbose args n world

theorem write_doc_live (w : FnCliDocWriter) (cs co : String)
    (h : w.no_action = false) :
    write_doc w cs co =
      log w ("Writing documentation to: " ++
        get_doc_filename w.output_dir (pySplit cs)) 1 ++
      [Effect.write (get_doc_filename w.output_dir (pySplit cs))
        (doc_template_substitute cs co)] := by
  simp only [write_doc]
  rw [if_neg (by simp [h])]

theorem process_line_valid (w : FnCliDocWriter)
    (exec : List String → ProcResult) (l : String)
    (h1 : (pySplit l).headD "" = FN_COMMAND) (h2 : w.no_action = false)
    (h3 : (exec (pySplit l ++ ["--help"])).exitCode = 0) :
    process_line w exec l =
      (log w ("Found command: \x27" ++ l ++ "\x27") 1 ++
        (log w ("Running command: " ++
          pyListRepr (pySplit l ++ ["--help"])) 1 ++
          [Effect.spawn (pySplit l ++ ["--help"])]) ++
        write_doc w l (exec (pySplit l ++ ["--help"])).stdout ++
        log w "" 1,
       Except.ok ()) := by
  have hne : pySplit l ≠ [] := by
    intro he
    rw [he] at h1
    exact absurd h1 (by decide)
  have hco : check_output (exec (pySplit l ++ ["--help"])) =
      Except.ok (exec (pySplit l ++ ["--help"])).stdout := by
    unfold check_output
    rw [if_pos h3]
  unfold process_line
  rw [if_neg (by simp [Nat.lt_one_iff, List.length_eq_zero, hne])]
  rw [run_command_valid w exec (pySplit l) h1 h2, hco]

/-- C10 (confirmed): for a processed valid command line, the executed argv
is the line's tokens with the help flag appended, while the written
document's path is derived from the re-split original line only — the
appended help flag never reaches the filename. -/
theorem C10_theorem (w : FnCliDocWriter) (exec : List String → ProcResult)
    (l : String) (h1 : (pySplit l).headD "" = FN_COMMAND)
    (h2 : w.no_action = false)
    (h3 : (exec (pySplit l ++ ["--help"])).exitCode = 0) :
    Effect.spawn (pySplit l ++ ["--help"]) ∈ (process_line w exec l).1 ∧
    Effect.write (get_doc_filename w.output_dir (pySplit l))
        (doc_template_substitute l (exec (pySplit l ++ ["--help"])).stdout) ∈
      (process_line w exec l).1 := by
  rw [process_line_valid w exec l h1 h2 h3]
  rw [write_doc_live w l ((exec (pySplit l ++ ["--help"])).stdout) h2]
  constructor
  · simp
  · simp

/-- C10 (witness): the theorem instantiated at the line `fn build` under the
scenario process oracle. -/
theorem C10_witness :
    (pySplit "fn build").headD "" = FN_COMMAND ∧ wLive.no_action = false ∧
    (execHelp (pySplit "fn build" ++ ["--help"])).exitCode = 0 ∧
    (Effect.spawn (pySplit "fn build" ++ ["--help"]) ∈
        (process_line wLive execHelp "fn build").1 ∧
      Effect.write (get_doc_filename wLive.output_dir (pySplit "fn build"))
          (doc_template_substitute "fn build"
            (execHelp (pySplit "fn build" ++ ["--help"])).stdout) ∈
        (process_line wLive execHelp "fn build").1) :=
  ⟨by decide, rfl, by decide,
    C10_theorem wLive execHelp "fn build" (by decide) rfl (by decide)⟩

end FnCliDocRefs
